import Mathlib

/-!
Verification development for the smart-nvr event-routing and clip-handoff
orchestrator.  The Python sources under `src/metro-ai-suite/smart-nvr/src`
are shallowly embedded: pure control flow becomes Lean functions, the
network and the filesystem become explicit oracle parameters, and every
outgoing HTTP request is recorded in a trace list so that "no network call
was issued" is the statement "the trace is empty".  Python `float` time
stamps are modelled as rationals (`ℚ`); exceptions are modelled with
`Except` over an explicit error type.
-/

namespace SmartNvr

/-- Model of `fastapi.HTTPException`: a status code and a detail string. -/
structure HTTPException where
  status_code : Nat
  detail : String
deriving Repr, DecidableEq

/-- Errors a modelled Python call can raise: an `HTTPException`, a
`TypeError` (bad call arity), an `AttributeError` (missing attribute), a
`KeyError` (missing dict key), or a `requests.RequestException` (transport
failure). -/
inductive PyError where
  | http (e : HTTPException)
  | typeError (msg : String)
  | attributeError (name : String)
  | keyError (key : String)
  | requestError (msg : String)
deriving Repr, DecidableEq

/-- Rendering of `str(e)` for a caught exception, as used by
`get_search_responses` when it builds its error marker. -/
def pyErrStr : PyError → String
  | .http e => e.detail
  | .typeError msg => msg
  | .attributeError name => name
  | .keyError key => key
  | .requestError msg => msg

/-- The JSON fields of an upstream response body that the embedded code
ever reads (`summary`, `videoId`, `summaryPipelineId`, `message`); a field
the upstream did not send is `none`. -/
structure JsonBody where
  summary : Option String
  videoId : Option String
  summaryPipelineId : Option String
  message : Option String
deriving Repr, DecidableEq

/-- Body of an upstream HTTP response, as far as the embedded code inspects
it: content headers plus the parsed JSON fields. -/
structure HttpResponse where
  text : String
  contentType : String
  contentDisposition : String
  json : JsonBody
deriving Repr, DecidableEq

/-- Outcome of one `requests.get`/`requests.post`: a 2xx response, an
`HTTPError` after `raise_for_status` (carrying the status and body), or a
`RequestException` (connection/timeout failure). -/
inductive NetResult where
  | ok (resp : HttpResponse)
  | httpError (status : Nat) (text : String)
  | requestError (msg : String)
deriving Repr, DecidableEq

/-- The network oracle: what the upstream returns for each requested URL. -/
def Net : Type := String → NetResult

/-- Model of `fastapi.responses.StreamingResponse` as the endpoint code
builds it (media type and content-disposition header). -/
structure StreamingResponse where
  media_type : String
  contentDisposition : String
deriving Repr, DecidableEq

/-! ## Clip Acquisition: `api/endpoints/frigate_api.py`, class `FrigateService` -/

/-- Embeds `FrigateService._validate_time_range` (frigate_api.py lines
62-72): `end_time <= start_time` raises 400 "End time must be after start
time"; `end_time - start_time > 300` raises 400 "Clip duration cannot
exceed 300 seconds". -/
def _validate_time_range (start_time end_time : ℚ) : Except HTTPException Unit :=
  if end_time ≤ start_time then
    .error ⟨400, "End time must be after start time"⟩
  else if end_time - start_time > 300 then
    .error ⟨400, "Clip duration cannot exceed 300 seconds"⟩
  else
    .ok ()

/-- Embeds `FrigateService.get_camera_clip` (frigate_api.py lines 29-60):
validates the range, then issues one GET to the clip URL.  The second
component of the result is the list of URLs actually requested. -/
def get_camera_clip (net : Net) (base_url camera_name : String)
    (start_time end_time : ℚ) (download : Bool) :
    Except PyError StreamingResponse × List String :=
  match _validate_time_range start_time end_time with
  | .error ex => (.error (.http ex), [])
  | .ok () =>
    let url0 := base_url ++ "/api/" ++ camera_name ++ "/clip/" ++
      toString start_time ++ "/" ++ toString end_time
    let url := if download then url0 ++ "?download=1" else url0
    let result : Except PyError StreamingResponse :=
      match net url with
      | .ok r => .ok ⟨r.contentType, r.contentDisposition⟩
      | .httpError status _ =>
        if status = 404 then
          .error (.http ⟨404, "No clip found for specified time range"⟩)
        else
          .error (.requestError "HTTPError")
      | .requestError msg => .error (.requestError msg)
    (result, [url])

/-- Embeds `FrigateService.export_camera_clip` (frigate_api.py lines
105-125): validates the range, then issues one POST to the export URL. -/
def export_camera_clip (net : Net) (base_url camera_name : String)
    (start_time end_time : ℚ) :
    Except PyError HttpResponse × List String :=
  match _validate_time_range start_time end_time with
  | .error ex => (.error (.http ex), [])
  | .ok () =>
    let url := base_url ++ "/api/export/" ++ camera_name ++ "/start/" ++
      toString start_time ++ "/end/" ++ toString end_time
    let result : Except PyError HttpResponse :=
      match net url with
      | .ok r => .ok r
      | .httpError status text =>
        .error (.http ⟨status, "Frigate export error: " ++ text⟩)
      | .requestError msg =>
        .error (.http ⟨502, "Failed to contact Frigate: " ++ msg⟩)
    (result, [url])

/-- Embeds `FrigateService.get_clip_from_timestamps` (frigate_api.py lines
187-234), the acquisition step of the summarize/search paths: it checks
only `end_time <= start_time` (the 300-second cap of
`_validate_time_range` is not applied here), then issues one GET. -/
def get_clip_from_timestamps (net : Net) (base_url camera_name : String)
    (start_time end_time : ℚ) (download : Bool) :
    Except PyError StreamingResponse × List String :=
  if end_time ≤ start_time then
    (.error (.http ⟨400, "End time must be after start time"⟩), [])
  else
    let url0 := base_url ++ "/api/" ++ camera_name ++ "/start/" ++
      toString start_time ++ "/end/" ++ toString end_time ++ "/clip.mp4"
    let url := if download then url0 ++ "?download=1" else url0
    let result : Except PyError StreamingResponse :=
      match net url with
      | .ok r => .ok ⟨"video/mp4", r.contentDisposition⟩
      | .httpError status text =>
        if status = 404 then
          .error (.http ⟨404, "Clip not found for specified time range"⟩)
        else
          .error (.http ⟨502, "Frigate error: " ++ text⟩)
      | .requestError msg =>
        .error (.http ⟨502, "Failed to connect to Frigate: " ++ msg⟩)
    (result, [url])

/-- A network oracle that always answers with a fixed 2xx response carrying
no JSON fields, used in concrete evaluations. -/
def netAlwaysOk : Net := fun _ => .ok ⟨"body", "video/mp4", "inline", ⟨none, none, none, none⟩⟩

/-! ## Analysis backend client: `api/endpoints/summarization_api.py`,
class `SummarizationService` -/

/-- Embeds `SummarizationService.video_upload` (summarization_api.py lines
23-63) with both parameters bound: if the path is not an existing regular
file, raise `HTTPException(400)` whose detail names the path, issuing no
request; otherwise POST the file to `base_url ++ "/manager/videos/"`; any
`requests.RequestException` (including a non-2xx via `raise_for_status`)
becomes `HTTPException(502)`.  The second component lists the upload URLs
actually requested. -/
def video_upload (is_file : String → Bool) (net : Net)
    (video_path base_url : String) :
    Except PyError JsonBody × List String :=
  if is_file video_path = false then
    (.error (.http ⟨400, "Video file not found at path: " ++ video_path⟩), [])
  else
    let upload_url := base_url ++ "/manager/videos/"
    let result : Except PyError JsonBody :=
      match net upload_url with
      | .ok r => .ok r.json
      | .httpError _ text =>
        .error (.http ⟨502, "Failed to upload video: " ++ text⟩)
      | .requestError msg =>
        .error (.http ⟨502, "Failed to upload video: " ++ msg⟩)
    (result, [upload_url])

/-- TypeError message raised when `video_upload` is called with one
positional argument although its signature is
`video_upload(self, video_path, base_url)`. -/
def video_upload_missing_msg : String :=
  "video_upload() missing 1 required positional argument: base_url"

/-- Python call semantics for `summarization_service.video_upload(...)`
with a list of positional arguments: with fewer than two arguments the
interpreter raises `TypeError` before the method body runs, so no request
is issued. -/
def video_upload_call (is_file : String → Bool) (net : Net)
    (args : List String) : Except PyError JsonBody × List String :=
  match args with
  | [video_path, base_url] => video_upload is_file net video_path base_url
  | _ => (.error (.typeError video_upload_missing_msg), [])

/-- Embeds `SummarizationService.get_summary_result` (summarization_api.py
lines 84-100) with both parameters bound: GET
`base_url ++ "/manager/summary/" ++ pipeline_id`; a transport failure or
non-2xx becomes `HTTPException(502)` carrying the upstream detail. -/
def get_summary_result (net : Net) (pipeline_id base_url : String) :
    Except PyError JsonBody × List String :=
  let url := base_url ++ "/manager/summary/" ++ pipeline_id
  match net url with
  | .ok r => (.ok r.json, [url])
  | .httpError _ text =>
    (.error (.http ⟨502, "Failed to get summary result: " ++ text⟩), [url])
  | .requestError msg =>
    (.error (.http ⟨502, "Failed to get summary result: " ++ msg⟩), [url])

/-- TypeError message raised when `get_summary_result` is called with one
positional argument although its signature is
`get_summary_result(self, pipeline_id, base_url)`. -/
def get_summary_result_missing_msg : String :=
  "get_summary_result() missing 1 required positional argument: base_url"

/-- Python call semantics for
`summarization_service.get_summary_result(...)` with positional arguments:
with fewer than two arguments the interpreter raises `TypeError` before any
request is issued. -/
def get_summary_result_call (net : Net) (args : List String) :
    Except PyError JsonBody × List String :=
  match args with
  | [pipeline_id, base_url] => get_summary_result net pipeline_id base_url
  | _ => (.error (.typeError get_summary_result_missing_msg), [])

/-! ## Orchestrator: `service/vms_service.py`, class `VmsService` -/

/-- The fixed still-generating message returned by `VmsService.summary`
when the backend result has an empty or absent `summary` field. -/
def still_generating_msg : String :=
  "Summary is being generated please wait for a while and try again."

/-- Embeds `VmsService.summary` (vms_service.py lines 103-118).  The code
calls `summarization_service.get_summary_result(summary_id)` with a single
positional argument; on success it returns `result.get("summary")` when
that is non-empty and the fixed still-generating message otherwise, and it
re-raises any exception from the fetch.  The second component lists the
backend URLs actually requested. -/
def VmsService.summary (net : Net) (summary_id : String) :
    Except PyError String × List String :=
  match get_summary_result_call net [summary_id] with
  | (.error e, trace) => (.error e, trace)
  | (.ok result, trace) =>
    match result.summary with
    | none => (.ok still_generating_msg, trace)
    | some video_summary =>
      if video_summary = "" then (.ok still_generating_msg, trace)
      else (.ok video_summary, trace)

/-- Embeds `VmsService.upload_video_to_summarizer` (vms_service.py lines
29-70).  `clipResult` is the outcome of
`frigate_service.get_clip_from_timestamps` (the streamed bytes are not
inspected); `tmp_path` is the name `tempfile.NamedTemporaryFile` picked
(created with `delete=False`, so creation adds it to the filesystem
state `fs`); `writeResult` is the outcome of writing the stream to the
temporary file.  The upload step is
`summarization_service.video_upload(tmp_path)` — one positional argument.
The `finally` block only logs; `os.remove(tmp_path)` is commented out in
the source, so no path is ever removed from `fs`.  Result: (return value
or raised error, filesystem state after the call, upload URLs requested). -/
def upload_video_to_summarizer (is_file : String → Bool) (net : Net)
    (clipResult : Except PyError Unit) (tmp_path : String)
    (writeResult : Except PyError Unit) (fs : List String) :
    Except PyError String × List String × List String :=
  match clipResult with
  | .error e => (.error e, fs, [])
  | .ok () =>
    let fs1 := tmp_path :: fs
    match writeResult with
    | .error e => (.error e, fs1, [])
    | .ok () =>
      match video_upload_call is_file net [tmp_path] with
      | (.error e, trace) => (.error e, fs1, trace)
      | (.ok upload_result, trace) =>
        match upload_result.videoId with
        | some vid => (.ok vid, fs1, trace)
        | none => (.error (.keyError "videoId"), fs1, trace)

/-- The attributes `VmsService.__init__` (vms_service.py lines 25-27)
assigns on `self`, with an opaque value for each: only `frigate_service`. -/
def vmsInitAttrs : List (String × String) := [("frigate_service", "FrigateService")]

/-- Embeds the part of `VmsService.search_embeddings` (vms_service.py lines
119-151) that follows the awaited upload step, parameterised over the
upload outcome.  Given a video id from the upload, the code reads
`self.base_url` from the instance attributes (an `AttributeError` if
unassigned) to build the search-embeddings URL, then POSTs to it.  The
second component lists the URLs actually requested. -/
def search_embeddings_after_upload (attrs : List (String × String)) (net : Net)
    (uploadResult : Except PyError String) :
    Except PyError (List (String × String)) × List String :=
  match uploadResult with
  | .error e => (.error e, [])
  | .ok video_id =>
    match attrs.lookup "base_url" with
    | none => (.error (.attributeError "base_url"), [])
    | some base_url =>
      let url := base_url ++ "/manager/videos/search-embeddings/" ++ video_id
      match net url with
      | .ok r =>
        let message := match r.json.message with
          | some m => m
          | none => "No message in response."
        (.ok [(video_id, message)], [url])
      | .httpError _ text => (.error (.requestError text), [url])
      | .requestError msg => (.error (.requestError msg), [url])

/-! ## Rule table and event router: `api/router.py` -/

/-- Embeds the `Rule` pydantic model (router.py lines 150-154 and
model/rule.py): id, label, action, optional camera. -/
structure Rule where
  id : String
  label : String
  action : String
  camera : Option String
deriving Repr, DecidableEq

/-- The rule table persisted in the external key-value store, keyed by
rule id. -/
abbrev RuleTable : Type := List (String × Rule)

/-- Modelled from the spec: `service/redis_store.py` is not present in the
source tree (only its callers in `api/router.py` are).  Spec §4.4: `add`
fails (returns false) if `id` already exists; otherwise persists the rule
and returns success. -/
def redis_add_rule (table : RuleTable) (rule_id : String) (rule : Rule) :
    Bool × RuleTable :=
  match table.lookup rule_id with
  | some _ => (false, table)
  | none => (true, table ++ [(rule_id, rule)])

/-- Embeds the `POST /rules/` handler `add_rule` (router.py lines 157-162):
it calls `redis_store.add_rule(request, rule.id, rule.dict())` and, when
that reports failure, raises `HTTPException(status_code=400, detail="Rule
ID already exists")`.  Result: (response or raised error, table after). -/
def add_rule (table : RuleTable) (rule : Rule) :
    Except HTTPException Rule × RuleTable :=
  let r := redis_add_rule table rule.id rule
  if r.1 = false then
    (.error ⟨400, "Rule ID already exists"⟩, r.2)
  else
    (.ok rule, r.2)

/-- Character-list helper for Python substring membership: does the needle
occur at the head of the haystack? -/
def charsLeadWith : List Char → List Char → Bool
  | [], _ => true
  | _ :: _, [] => false
  | a :: as, b :: bs => a = b && charsLeadWith as bs

/-- Character-list helper for Python substring membership: does the needle
occur anywhere in the haystack? -/
def charsContain (needle : List Char) : List Char → Bool
  | [] => needle.isEmpty
  | c :: rest => charsLeadWith needle (c :: rest) || charsContain needle rest

/-- Python `needle in haystack` on strings. -/
def inStr (needle haystack : String) : Bool :=
  charsContain needle.data haystack.data

/-- Python `str.lower()` (the actions involved are ASCII). -/
def pyLower (s : String) : String :=
  ⟨s.data.map Char.toLower⟩

/-- Inner loop of the `GET /rules/responses/` handler (router.py lines
115-121): resolve each summary id with `vms_service.summary`, rendering a
falsy (empty) result as "Pending" (`summaries[sid] = result or "Pending"`).
An exception from `resolve` propagates. -/
def resolveSids (resolve : String → Except PyError String)
    (sids : List String) : Except PyError (List (String × String)) :=
  sids.foldlM (fun acc sid => do
    let result ← resolve sid
    pure (acc ++ [(sid, if result = "" then "Pending" else result)])) []

/-- Body of the per-rule loop of the `GET /rules/responses/` handler
`get_all_rule_summaries` (router.py lines 105-123): a rule whose lowercased
action contains "search" is skipped; otherwise its summary ids are fetched
and each is resolved.  There is no exception handling: a failure at any
point propagates. -/
def summariesStep (summary_ids : String → Except PyError (List String))
    (resolve : String → Except PyError String)
    (output : List (String × List (String × String))) (rule : Rule) :
    Except PyError (List (String × List (String × String))) :=
  if inStr "search" (pyLower rule.action) then
    pure output
  else do
    let sids ← summary_ids rule.id
    let summaries ← resolveSids resolve sids
    pure (output ++ [(rule.id, summaries)])

/-- Embeds the `GET /rules/responses/` handler `get_all_rule_summaries`
(router.py lines 100-125).  `rulesResult` is the outcome of `await
get_rules(request)`; `summary_ids` and `resolve` are the outcomes of
`await get_summary_ids(request, rule_id)` and `vms_service.summary(sid)`.
The handler has no exception handling: a failure at any point propagates
and aborts the whole listing. -/
def get_all_rule_summaries (rulesResult : Except PyError (List Rule))
    (summary_ids : String → Except PyError (List String))
    (resolve : String → Except PyError String) :
    Except PyError (List (String × List (String × String))) := do
  let rules ← rulesResult
  rules.foldlM (summariesStep summary_ids resolve) []

/-- Output of the `GET /rules/search-responses/` handler: either the
per-rule dictionary, or the error-marker dictionary built by the handler's
`except` clause.  The placeholder dict containing status "Pending" is
modelled as the string "Pending". -/
inductive SearchOut where
  | ok (entries : List (String × List String))
  | err (msg : String)
deriving Repr, DecidableEq

/-- The action test of the search listing (router.py line 139): the rule's
action is exactly the string "add to search". -/
def isSearchAction (rule : Rule) : Bool :=
  rule.action = "add to search"

/-- Body of the per-rule loop of the `GET /rules/search-responses/` handler
(router.py lines 138-142): only rules whose action is exactly
"add to search" are included; a falsy result list renders as the
one-element pending placeholder. -/
def searchStep (search_results : String → Except PyError (List String))
    (output : List (String × List String)) (rule : Rule) :
    Except PyError (List (String × List String)) :=
  if rule.action = "add to search" then do
    let results ← search_results rule.id
    pure (output ++ [(rule.id, if results.isEmpty then ["Pending"] else results)])
  else
    pure output

/-- Body of the `try` block of `get_search_responses`: the rule-list fetch
followed by the whole per-rule loop. -/
def searchBody (rulesResult : Except PyError (List Rule))
    (search_results : String → Except PyError (List String)) :
    Except PyError (List (String × List String)) := do
  let rules ← rulesResult
  rules.foldlM (searchStep search_results) []

/-- Embeds the `GET /rules/search-responses/` handler `get_search_responses`
(router.py lines 128-147).  The `try` block spans the rule-list fetch and
the whole per-rule loop; any exception raised inside — including one while
resolving a single rule's search results — is caught and the entire output
is replaced by the error marker. -/
def get_search_responses (rulesResult : Except PyError (List Rule))
    (search_results : String → Except PyError (List String)) :
    SearchOut :=
  match searchBody rulesResult search_results with
  | .ok out => .ok out
  | .error e => .err (pyErrStr e)

/-! ## Concrete fixtures for evaluations -/

/-- A stored rule with id "r1", as in the end-to-end scenario of spec §8. -/
def frontDoorSearchRule : Rule := ⟨"r1", "person", "add to search", some "front-door"⟩

/-- A second rule reusing the id "r1" with different fields. -/
def duplicateIdRule : Rule := ⟨"r1", "car", "summarize", none⟩

/-- A non-search rule with id "ra". -/
def ruleSummA : Rule := ⟨"ra", "person", "summarize", none⟩

/-- A non-search rule with id "rb". -/
def ruleSummB : Rule := ⟨"rb", "car", "summarize", none⟩

/-- A search rule with id "qa". -/
def ruleSearchA : Rule := ⟨"qa", "person", "add to search", none⟩

/-- A search rule with id "qb". -/
def ruleSearchB : Rule := ⟨"qb", "car", "add to search", none⟩

/-- Summary-id store: rule "ra" owns job "s1", every other rule owns "s2". -/
def sidsMixed : String → Except PyError (List String) :=
  fun rule_id => if rule_id = "ra" then .ok ["s1"] else .ok ["s2"]

/-- Status resolver that fails (502) on job "s1" and succeeds elsewhere. -/
def resolveFailS1 : String → Except PyError String :=
  fun sid => if sid = "s1" then .error (.http ⟨502, "upstream down"⟩) else .ok "done"

/-- Search-result store that fails (502) for rule "qa" and succeeds elsewhere. -/
def searchFailQa : String → Except PyError (List String) :=
  fun rule_id => if rule_id = "qa" then .error (.http ⟨502, "upstream down"⟩) else .ok ["hit"]

/-- Summary-id store where every rule owns exactly job "s1". -/
def sidsAllOk : String → Except PyError (List String) := fun _ => .ok ["s1"]

/-- Status resolver that always succeeds with a non-empty summary. -/
def resolveAllOk : String → Except PyError String := fun _ => .ok "a summary"

/-- Search-result store that always succeeds with one entry. -/
def searchAllOk : String → Except PyError (List String) := fun _ => .ok ["hit"]

/-! ## Helper lemmas -/

/-- When the summarize-listing fold succeeds, the keys of its output are the
accumulator's keys followed by the ids of exactly those rules whose
lowercased action does not contain "search". -/
theorem foldlM_summaries_keys
    (summary_ids : String → Except PyError (List String))
    (resolve : String → Except PyError String) :
    ∀ (rules : List Rule) (acc out : List (String × List (String × String))),
      rules.foldlM (summariesStep summary_ids resolve) acc = .ok out →
      out.map Prod.fst =
        acc.map Prod.fst ++
          (rules.filter fun r => !inStr "search" (pyLower r.action)).map Rule.id
  | [], acc, out => by
    intro h
    simp only [List.foldlM_nil] at h
    cases h
    simp
  | r :: rest, acc, out => by
    intro h
    rw [List.foldlM_cons] at h
    by_cases hc : inStr "search" (pyLower r.action) = true
    · have hstep : summariesStep summary_ids resolve acc r = .ok acc := by
        unfold summariesStep
        rw [if_pos hc]
        rfl
      rw [hstep] at h
      have h' : rest.foldlM (summariesStep summary_ids resolve) acc = .ok out := h
      have ih := foldlM_summaries_keys summary_ids resolve rest acc out h'
      rw [ih]
      simp [List.filter_cons, hc]
    · cases h1 : summary_ids r.id with
      | error e =>
        have hstep : summariesStep summary_ids resolve acc r = .error e := by
          unfold summariesStep
          rw [if_neg hc, h1]
          rfl
        rw [hstep] at h
        have hcontra : (Except.error e : Except PyError _) = .ok out := h
        cases hcontra
      | ok sids =>
        cases h2 : resolveSids resolve sids with
        | error e =>
          have hstep : summariesStep summary_ids resolve acc r = .error e := by
            unfold summariesStep
            rw [if_neg hc, h1]
            show (fun a => acc ++ [(r.id, a)]) <$> resolveSids resolve sids = .error e
            rw [h2]
            rfl
          rw [hstep] at h
          have hcontra : (Except.error e : Except PyError _) = .ok out := h
          cases hcontra
        | ok summaries =>
          have hstep : summariesStep summary_ids resolve acc r =
              .ok (acc ++ [(r.id, summaries)]) := by
            unfold summariesStep
            rw [if_neg hc, h1]
            show (fun a => acc ++ [(r.id, a)]) <$> resolveSids resolve sids =
              .ok (acc ++ [(r.id, summaries)])
            rw [h2]
            rfl
          rw [hstep] at h
          have h' : rest.foldlM (summariesStep summary_ids resolve)
              (acc ++ [(r.id, summaries)]) = .ok out := h
          have ih := foldlM_summaries_keys summary_ids resolve rest
            (acc ++ [(r.id, summaries)]) out h'
          rw [ih]
          simp [List.filter_cons, hc]

/-- When the search-listing fold succeeds, the keys of its output are the
accumulator's keys followed by the ids of exactly those rules whose action
is "add to search". -/
theorem foldlM_search_keys
    (search_results : String → Except PyError (List String)) :
    ∀ (rules : List Rule) (acc out : List (String × List String)),
      rules.foldlM (searchStep search_results) acc = .ok out →
      out.map Prod.fst = acc.map Prod.fst ++ (rules.filter isSearchAction).map Rule.id
  | [], acc, out => by
    intro h
    simp only [List.foldlM_nil] at h
    cases h
    simp
  | r :: rest, acc, out => by
    intro h
    rw [List.foldlM_cons] at h
    by_cases hc : r.action = "add to search"
    · cases h1 : search_results r.id with
      | error e =>
        have hstep : searchStep search_results acc r = .error e := by
          unfold searchStep
          rw [if_pos hc, h1]
          rfl
        rw [hstep] at h
        have hcontra : (Except.error e : Except PyError _) = .ok out := h
        cases hcontra
      | ok results =>
        have hstep : searchStep search_results acc r =
            .ok (acc ++ [(r.id, if results.isEmpty then ["Pending"] else results)]) := by
          unfold searchStep
          rw [if_pos hc, h1]
          rfl
        rw [hstep] at h
        have h' : rest.foldlM (searchStep search_results)
            (acc ++ [(r.id, if results.isEmpty then ["Pending"] else results)]) = .ok out := h
        have ih := foldlM_search_keys search_results rest
          (acc ++ [(r.id, if results.isEmpty then ["Pending"] else results)]) out h'
        rw [ih]
        simp [List.filter_cons, isSearchAction, hc]
    · have hstep : searchStep search_results acc r = .ok acc := by
        unfold searchStep
        rw [if_neg hc]
        rfl
      rw [hstep] at h
      have h' : rest.foldlM (searchStep search_results) acc = .ok out := h
      have ih := foldlM_search_keys search_results rest acc out h'
      rw [ih]
      simp [List.filter_cons, isSearchAction, hc]

/-! ## Claim theorems -/

/-- C1.  The claim states that after the upload step of
`upload_video_to_summarizer` the staged temporary file is gone from
storage.  The code keeps it: the `finally` block only logs and
`os.remove(tmp_path)` is commented out, so at this concrete invocation
(clip fetch and write succeed) the temporary file is still present in the
filesystem state after the call returns. -/
theorem tempfile_not_removed_after_upload_step :
    upload_video_to_summarizer (fun _ => true) netAlwaysOk (.ok ())
        "/tmp/tmpabc.mp4" (.ok ()) [] =
      (.error (.typeError video_upload_missing_msg), ["/tmp/tmpabc.mp4"], []) ∧
    "/tmp/tmpabc.mp4" ∈
      (upload_video_to_summarizer (fun _ => true) netAlwaysOk (.ok ())
        "/tmp/tmpabc.mp4" (.ok ()) []).2.1 := by
  exact ⟨rfl, by decide⟩

/-- C2 counterexample.  A summarize-path acquisition
(`get_clip_from_timestamps`) with `end_time - start_time = 301 > 300` does
not fail with a validation error: it issues the network fetch and returns
the stream, refuting the claim that every clip/export/summarize request
over the 300-second cap fails before any network call. -/
theorem overlong_summarize_fetch_counterexample :
    get_clip_from_timestamps netAlwaysOk "http://frigate" "front-door" 0 301 false =
      (.ok ⟨"video/mp4", "inline"⟩,
       ["http://frigate/api/front-door/start/0/end/301/clip.mp4"]) := by
  rfl

/-- C2 amended.  For every range longer than 300 seconds, the clip
(`get_camera_clip`) and export (`export_camera_clip`) paths fail with the
400 duration-cap validation error before any network call (empty request
trace), while the summarize-path acquisition (`get_clip_from_timestamps`)
enforces no duration cap and issues exactly one request to the footage
source. -/
theorem duration_cap_only_on_clip_and_export
    (net : Net) (base_url camera_name : String) (s e : ℚ) (d : Bool)
    (h : 300 < e - s) :
    get_camera_clip net base_url camera_name s e d =
      (.error (.http ⟨400, "Clip duration cannot exceed 300 seconds"⟩), []) ∧
    export_camera_clip net base_url camera_name s e =
      (.error (.http ⟨400, "Clip duration cannot exceed 300 seconds"⟩), []) ∧
    (get_clip_from_timestamps net base_url camera_name s e d).2.length = 1 := by
  have hns : ¬ e ≤ s := by
    intro hle
    have : e - s ≤ 0 := by linarith
    linarith
  refine ⟨?_, ?_, ?_⟩
  · simp [get_camera_clip, _validate_time_range, hns, h]
  · simp [export_camera_clip, _validate_time_range, hns, h]
  · simp [get_clip_from_timestamps, hns]

/-- C2 amended, witnessed at `start_time = 0`, `end_time = 301` with a
concrete network oracle. -/
theorem duration_cap_only_on_clip_and_export_witness :
    (300 : ℚ) < 301 - 0 ∧
    (get_camera_clip netAlwaysOk "http://frigate" "front-door" 0 301 false =
      (.error (.http ⟨400, "Clip duration cannot exceed 300 seconds"⟩), []) ∧
    export_camera_clip netAlwaysOk "http://frigate" "front-door" 0 301 =
      (.error (.http ⟨400, "Clip duration cannot exceed 300 seconds"⟩), []) ∧
    (get_clip_from_timestamps netAlwaysOk "http://frigate" "front-door" 0 301 false).2.length = 1) :=
  ⟨by norm_num,
   duration_cap_only_on_clip_and_export netAlwaysOk "http://frigate" "front-door"
     0 301 false (by norm_num)⟩

/-- C3 counterexample.  Adding a rule whose id "r1" already exists is
rejected and leaves the table unchanged, but the error code is 400, not
the 409 conflict code the claim states. -/
theorem duplicate_rule_rejected_with_400_not_409 :
    add_rule [("r1", frontDoorSearchRule)] duplicateIdRule =
      (.error ⟨400, "Rule ID already exists"⟩, [("r1", frontDoorSearchRule)]) ∧
    (400 : Nat) ≠ 409 := by
  exact ⟨rfl, by decide⟩

/-- C3 amended.  For every table state and every rule whose id already
exists in the table, `add_rule` rejects the addition with
`HTTPException(status_code=400, detail="Rule ID already exists")` and the
table is unchanged (the stored entry keeps its original fields and no new
entry is created). -/
theorem duplicate_rule_add_rejected_table_unchanged
    (table : RuleTable) (rule r0 : Rule)
    (h : table.lookup rule.id = some r0) :
    add_rule table rule = (.error ⟨400, "Rule ID already exists"⟩, table) := by
  simp [add_rule, redis_add_rule, h]

/-- C3 amended, witnessed on a one-entry table holding id "r1". -/
theorem duplicate_rule_add_rejected_table_unchanged_witness :
    ([("r1", frontDoorSearchRule)] : RuleTable).lookup duplicateIdRule.id =
      some frontDoorSearchRule ∧
    add_rule [("r1", frontDoorSearchRule)] duplicateIdRule =
      (.error ⟨400, "Rule ID already exists"⟩, [("r1", frontDoorSearchRule)]) :=
  ⟨by decide,
   duplicate_rule_add_rejected_table_unchanged [("r1", frontDoorSearchRule)]
     duplicateIdRule frontDoorSearchRule (by decide)⟩

/-- C4 counterexample.  With two non-search rules where only the first
rule's job resolution fails (502) and the second resolves fine, the
summarize listing returns the propagated error instead of partial output;
with two search rules where only the first rule's search-result fetch
fails, the search listing returns the top-level error marker even though
the rule-list fetch itself succeeded.  This refutes the claim that each
listing still resolves all other rules and returns their partial output. -/
theorem rule_failure_not_isolated_counterexample :
    get_all_rule_summaries (.ok [ruleSummA, ruleSummB]) sidsMixed resolveFailS1 =
      .error (.http ⟨502, "upstream down"⟩) ∧
    get_search_responses (.ok [ruleSearchA, ruleSearchB]) searchFailQa =
      .err "upstream down" := by
  exact ⟨rfl, rfl⟩

/-- C4 amended.  A failure while resolving one rule's results is not
isolated: in the summarize listing (`get_all_rule_summaries`) the error
propagates and aborts the whole listing, and in the search listing
(`get_search_responses`) any failure inside the handler — including a
per-rule search-result fetch failure, not only a rule-list fetch failure —
is caught at the top level and replaces the entire output with the error
marker; neither listing returns partial output. -/
theorem rule_resolution_failure_aborts_listings
    (rs rs2 : List Rule) (r r2 : Rule)
    (summary_ids : String → Except PyError (List String))
    (resolve : String → Except PyError String)
    (search_results : String → Except PyError (List String))
    (sid : String) (e e2 : PyError)
    (h1 : inStr "search" (pyLower r.action) = false)
    (h2 : summary_ids r.id = .ok [sid])
    (h3 : resolve sid = .error e)
    (h4 : r2.action = "add to search")
    (h5 : search_results r2.id = .error e2) :
    get_all_rule_summaries (.ok (r :: rs)) summary_ids resolve = .error e ∧
    get_search_responses (.ok (r2 :: rs2)) search_results = .err (pyErrStr e2) := by
  constructor
  · have hres : resolveSids resolve [sid] = .error e := by
      unfold resolveSids
      rw [List.foldlM_cons, h3]
      rfl
    have hstep : summariesStep summary_ids resolve [] r = .error e := by
      unfold summariesStep
      rw [if_neg (by simp [h1]), h2]
      show (fun a => [] ++ [(r.id, a)]) <$> resolveSids resolve [sid] = .error e
      rw [hres]
      rfl
    show (r :: rs).foldlM (summariesStep summary_ids resolve) [] = .error e
    rw [List.foldlM_cons, hstep]
    rfl
  · have hstep : searchStep search_results [] r2 = .error e2 := by
      unfold searchStep
      rw [if_pos h4, h5]
      rfl
    have hbody : searchBody (.ok (r2 :: rs2)) search_results = .error e2 := by
      show (r2 :: rs2).foldlM (searchStep search_results) [] = .error e2
      rw [List.foldlM_cons, hstep]
      rfl
    unfold get_search_responses
    rw [hbody]

/-- C4 amended, witnessed with one-rule lists and the concrete failing
stores. -/
theorem rule_resolution_failure_aborts_listings_witness :
    inStr "search" (pyLower ruleSummA.action) = false ∧
    get_all_rule_summaries (.ok [ruleSummA]) sidsMixed resolveFailS1 =
      .error (.http ⟨502, "upstream down"⟩) ∧
    get_search_responses (.ok [ruleSearchA]) searchFailQa =
      .err "upstream down" :=
  have H := rule_resolution_failure_aborts_listings [] [] ruleSummA ruleSearchA
    sidsMixed resolveFailS1 searchFailQa "s1"
    (.http ⟨502, "upstream down"⟩) (.http ⟨502, "upstream down"⟩)
    (by decide) rfl rfl rfl rfl
  ⟨by decide, H.1, H.2⟩

/-- C5.  The claim describes the intended status mapping (non-empty
summary ⇒ returned; empty/absent ⇒ fixed still-generating message;
transport failure ⇒ surfaced with upstream detail), which matches both the
spec and the mapping code inside `VmsService.summary`; but the call
`summarization_service.get_summary_result(summary_id)` omits the required
`base_url` parameter, so every summary-status query raises `TypeError`
before any backend request is issued (empty request trace). -/
theorem summary_status_query_raises_type_error :
    VmsService.summary netAlwaysOk "p456" =
      (.error (.typeError get_summary_result_missing_msg), []) ∧
    get_summary_result_missing_msg =
      "get_summary_result() missing 1 required positional argument: base_url" := by
  exact ⟨rfl, rfl⟩

/-- C6.  For every time range with `end_time <= start_time`, all three
footage-source request paths — clip (`get_camera_clip`), export
(`export_camera_clip`) and the summarize-path acquisition
(`get_clip_from_timestamps`) — fail with the 400 validation error "End
time must be after start time" and issue no network call (empty request
trace). -/
theorem reversed_range_rejected_before_network
    (net : Net) (base_url camera_name : String) (s e : ℚ) (d : Bool)
    (h : e ≤ s) :
    get_camera_clip net base_url camera_name s e d =
      (.error (.http ⟨400, "End time must be after start time"⟩), []) ∧
    export_camera_clip net base_url camera_name s e =
      (.error (.http ⟨400, "End time must be after start time"⟩), []) ∧
    get_clip_from_timestamps net base_url camera_name s e d =
      (.error (.http ⟨400, "End time must be after start time"⟩), []) := by
  refine ⟨?_, ?_, ?_⟩
  · simp [get_camera_clip, _validate_time_range, h]
  · simp [export_camera_clip, _validate_time_range, h]
  · simp [get_clip_from_timestamps, h]

/-- C6, witnessed at the reversed range `start_time = 1`, `end_time = 0`
with a concrete network oracle. -/
theorem reversed_range_rejected_before_network_witness :
    (0 : ℚ) ≤ 1 ∧
    (get_camera_clip netAlwaysOk "http://frigate" "front-door" 1 0 false =
      (.error (.http ⟨400, "End time must be after start time"⟩), []) ∧
    export_camera_clip netAlwaysOk "http://frigate" "front-door" 1 0 =
      (.error (.http ⟨400, "End time must be after start time"⟩), []) ∧
    get_clip_from_timestamps netAlwaysOk "http://frigate" "front-door" 1 0 false =
      (.error (.http ⟨400, "End time must be after start time"⟩), [])) :=
  ⟨by norm_num,
   reversed_range_rejected_before_network netAlwaysOk "http://frigate" "front-door"
     1 0 false (by norm_num)⟩

/-- C7.  When both listings succeed, the summarize listing's keys are
exactly the ids of the rules whose lowercased action does not contain
"search", the search listing's keys are exactly the ids of the rules whose
action is the exact string "add to search", and the two inclusion
conditions are mutually exclusive: a rule passing the search test always
contains "search" case-insensitively, so it is excluded from the summarize
listing — no rule appears in both. -/
theorem listing_partition_by_action
    (rules : List Rule)
    (summary_ids : String → Except PyError (List String))
    (resolve : String → Except PyError String)
    (search_results : String → Except PyError (List String))
    (out : List (String × List (String × String)))
    (sout : List (String × List String))
    (h1 : get_all_rule_summaries (.ok rules) summary_ids resolve = .ok out)
    (h2 : get_search_responses (.ok rules) search_results = .ok sout) :
    out.map Prod.fst =
      (rules.filter fun r => !inStr "search" (pyLower r.action)).map Rule.id ∧
    sout.map Prod.fst = (rules.filter isSearchAction).map Rule.id ∧
    (∀ r : Rule, isSearchAction r = true →
      inStr "search" (pyLower r.action) = true) := by
  refine ⟨?_, ?_, ?_⟩
  · have h1' : rules.foldlM (summariesStep summary_ids resolve) [] = .ok out := h1
    simpa using foldlM_summaries_keys summary_ids resolve rules [] out h1'
  · have hb : searchBody (.ok rules) search_results = .ok sout := by
      revert h2
      unfold get_search_responses
      cases hB : searchBody (.ok rules) search_results with
      | ok o => intro h2; cases h2; rfl
      | error e => intro h2; cases h2
    have hb' : rules.foldlM (searchStep search_results) [] = .ok sout := hb
    simpa using foldlM_search_keys search_results rules [] sout hb'
  · intro r hr
    have ha : r.action = "add to search" := by
      simpa [isSearchAction] using hr
    rw [ha]
    decide

/-- C7, witnessed on a two-rule table (one summarize rule, one search
rule) with all-success stores: the summarize listing holds exactly "ra",
the search listing exactly "qa". -/
theorem listing_partition_by_action_witness :
    ([("ra", [("s1", "a summary")])] : List (String × List (String × String))).map Prod.fst =
      ([ruleSummA, ruleSearchA].filter fun r => !inStr "search" (pyLower r.action)).map Rule.id ∧
    ([("qa", ["hit"])] : List (String × List String)).map Prod.fst =
      ([ruleSummA, ruleSearchA].filter isSearchAction).map Rule.id ∧
    (∀ r : Rule, isSearchAction r = true →
      inStr "search" (pyLower r.action) = true) :=
  listing_partition_by_action [ruleSummA, ruleSearchA] sidsAllOk resolveAllOk
    searchAllOk [("ra", [("s1", "a summary")])] [("qa", ["hit"])] rfl rfl

/-- C8.  The upload step of `upload_video_to_summarizer` (used by both the
summarize and the search-embeddings compositions) invokes
`summarization_service.video_upload` with only the temporary file path,
while the method's signature requires a second `base_url` parameter: every
invocation that reaches the upload step (clip fetch and stream write
succeeded) fails with the missing-argument `TypeError` and no upload
request is sent to the analysis backend (empty upload trace); the staged
file has been created by then. -/
theorem upload_step_missing_base_url_argument
    (is_file : String → Bool) (net : Net) (tmp_path : String) (fs : List String) :
    upload_video_to_summarizer is_file net (.ok ()) tmp_path (.ok ()) fs =
      (.error (.typeError video_upload_missing_msg), tmp_path :: fs, []) ∧
    video_upload_call is_file net [tmp_path] =
      (.error (.typeError video_upload_missing_msg), []) := by
  exact ⟨rfl, rfl⟩

/-- C9.  `VmsService.__init__` assigns only `frigate_service`, so
`base_url` is absent from the instance attributes, and every
`search_embeddings` call whose upload step completes with a video id fails
with `AttributeError` on `base_url` before the search-embeddings request
is issued (empty request trace). -/
theorem search_embeddings_missing_base_url_attribute
    (net : Net) (video_id : String) :
    List.lookup "base_url" vmsInitAttrs = none ∧
    search_embeddings_after_upload vmsInitAttrs net (.ok video_id) =
      (.error (.attributeError "base_url"), []) := by
  exact ⟨rfl, rfl⟩

/-- C10.  For every path that is not an existing regular file,
`video_upload` fails with the 400 error whose detail names the missing
path and issues no request to the analysis backend (empty trace); when the
file exists, exactly the upload POST to `base_url ++ "/manager/videos/"`
is attempted. -/
theorem video_upload_missing_file_no_request
    (is_file : String → Bool) (net : Net) (video_path base_url : String) :
    (is_file video_path = false →
      video_upload is_file net video_path base_url =
        (.error (.http ⟨400, "Video file not found at path: " ++ video_path⟩), [])) ∧
    (is_file video_path = true →
      (video_upload is_file net video_path base_url).2 =
        [base_url ++ "/manager/videos/"]) := by
  constructor
  · intro h
    simp [video_upload, h]
  · intro h
    simp [video_upload, h]

/-- C10, witnessed with an always-absent and an always-present filesystem
oracle at a concrete path and base URL. -/
theorem video_upload_missing_file_no_request_witness :
    ((fun _ => false : String → Bool) "/tmp/x.mp4" = false ∧
      video_upload (fun _ => false) netAlwaysOk "/tmp/x.mp4" "http://vss" =
        (.error (.http ⟨400, "Video file not found at path: /tmp/x.mp4"⟩), [])) ∧
    ((fun _ => true : String → Bool) "/tmp/x.mp4" = true ∧
      (video_upload (fun _ => true) netAlwaysOk "/tmp/x.mp4" "http://vss").2 =
        ["http://vss/manager/videos/"]) :=
  ⟨⟨rfl, (video_upload_missing_file_no_request (fun _ => false) netAlwaysOk
      "/tmp/x.mp4" "http://vss").1 rfl⟩,
   ⟨rfl, (video_upload_missing_file_no_request (fun _ => true) netAlwaysOk
      "/tmp/x.mp4" "http://vss").2 rfl⟩⟩

end SmartNvr
